import Mathlib

/-!
Verification development for the `sofascore_scraper` repository.

We give a shallow embedding, in Lean 4, of the pieces of the Python code
that the specification talks about:

* `src/utils.py` — the blocking and asynchronous HTTP request helpers
  (`make_api_request`, `make_api_request_async`) with their retry and
  backoff behaviour, modelled as pure functions over a "script" mapping
  attempt indices to server outcomes;
* `src/exceptions.py` — the exception hierarchy, as an inductive type;
* `src/match_fetcher.py` — the finished-match filter
  (`_filter_finished_matches`, also as a heap program to capture
  mutation behaviour), empty-round detection, the CSV row extraction of
  `_save_matches_data`, the skip-if-exists logic of
  `_fetch_and_save_round`, and its exception dispatch;
* `src/match_data_fetcher.py` — the per-match fan-out fetch
  (`_fetch_match_data_async`, `_fetch_endpoint_async`,
  `_save_match_data`) and the pre-filter of `fetch_all_match_details` /
  `fetch_matches_batch_async` against the on-disk detail tree;
* `src/season_fetcher.py` — `_get_sortable_year_value`;
* the per-batch concurrency structure of the two batch fetchers, as
  small-step transition systems counting in-flight requests.

Python `dict`s holding JSON data are modelled as association lists of
`String × JVal`; Python `None` inside JSON data is `JVal.null`.
-/

/-- JSON values, as produced by `response.json()` / `json.load`. -/
inductive JVal : Type where
  | null : JVal
  | bool : Bool → JVal
  | num : Int → JVal
  | str : String → JVal
  | arr : List JVal → JVal
  | obj : List (String × JVal) → JVal

/-- A Python dict with string keys and JSON values (top-level API payloads). -/
abbrev PyDict := List (String × JVal)

namespace PyDict

/-- `d.get(k)` / `d[k]`: first binding of `k`, if any. -/
def lookupKey (d : PyDict) (k : String) : Option JVal :=
  match d with
  | [] => none
  | (k', v) :: rest => if k' = k then some v else lookupKey rest k

/-- `d[k] = v`: replace the first binding of `k`, or append a new one
(Python dicts keep insertion order and assignment updates in place). -/
def setKey (d : PyDict) (k : String) (v : JVal) : PyDict :=
  match d with
  | [] => [(k, v)]
  | (k', v') :: rest =>
      if k' = k then (k', v) :: rest else (k', v') :: setKey rest k v

end PyDict

open PyDict

/-- `v.get(k)` where `v` is expected to be a JSON object: `none` when the
key is missing; non-object shapes (on which Python would raise
`AttributeError`, never hit on API data) also yield `none`. -/
def getObj (v : JVal) (k : String) : Option JVal :=
  match v with
  | .obj fields => lookupKey fields k
  | _ => none

/-- `v.get(k, default)`. -/
def getD (v : JVal) (k : String) (dflt : JVal) : JVal :=
  (getObj v k).getD dflt

/-- Python truthiness of a JSON value (`bool(v)`). -/
def pyTruthy (v : JVal) : Bool :=
  match v with
  | .null => false
  | .bool b => b
  | .num n => n != 0
  | .str s => s != ""
  | .arr l => !l.isEmpty
  | .obj l => !l.isEmpty

/-! ## `src/exceptions.py`

The exception classes, as an inductive type.  In Python,
`RateLimitError` and `ResourceNotFoundError` are subclasses of
`APIError`; an `except APIError` catches all three, while an
`except ResourceNotFoundError` catches only that class.  We model each
concrete class as a constructor and subclass-catching as a predicate. -/

/-- The scraper's exception classes (concrete classes as constructors). -/
inductive SofaErr : Type where
  | apiError (statusCode : Option Nat) : SofaErr
  | rateLimitError (waitTime : Nat) : SofaErr
  | resourceNotFoundError : SofaErr
  | dataParsingError : SofaErr
  | networkError : SofaErr
  | scraperError : SofaErr
  deriving DecidableEq, Repr

/-- `isinstance(e, ResourceNotFoundError)`: only that class itself (it
has no subclasses). -/
def isResourceNotFound (e : SofaErr) : Bool :=
  match e with
  | .resourceNotFoundError => true
  | _ => false

/-! ## `src/utils.py` — request layer

A request's interaction with the server is modelled by a *script*
mapping the attempt index (0-based) to what the server does on that
attempt.  Bodies carry `Except Unit JVal`: `.error ()` stands for a
body that fails JSON parsing. -/

/-- What the server does on one attempt. -/
inductive AttemptOutcome : Type where
  /-- `requests.exceptions.ConnectionError` / `Timeout`
  (resp. `aiohttp.ClientError` / `asyncio.TimeoutError`). -/
  | connErr : AttemptOutcome
  /-- An HTTP response with a status code and a body parse result. -/
  | resp (status : Nat) (body : Except Unit JVal) : AttemptOutcome

/-- Result of running one of the request helpers. -/
structure ReqResult : Type where
  /-- Number of attempts actually made (loop iterations entered). -/
  attempts : Nat
  /-- Backoff sleeps performed, in order, in seconds (the 429 sleeps
  `min(60, 5*2^attempt)` and the network-error sleeps `3*2^attempt`;
  the short post-success "human behaviour" sleep is not a backoff and
  is not recorded). -/
  sleeps : List Nat
  /-- `.ok` = normal return value; `.error` = exception raised. -/
  outcome : Except SofaErr (Option JVal)

/-- Cons a sleep onto a result and bump the attempt count. -/
def ReqResult.after (w : Nat) (r : ReqResult) : ReqResult :=
  { r with attempts := r.attempts + 1, sleeps := w :: r.sleeps }

/-- One-attempt bookkeeping with no further recursion. -/
def ReqResult.done (sleeps : List Nat) (o : Except SofaErr (Option JVal)) :
    ReqResult :=
  { attempts := 1, sleeps := sleeps, outcome := o }

/-- The body of `make_api_request`'s `for attempt in range(max_retries)`
loop (src/utils.py lines 99–159), from attempt index `a` with
`maxRetries - a` iterations left.  `fuel` is `maxRetries - a`. -/
def makeApiRequestLoop (script : Nat → AttemptOutcome) (maxRetries : Nat) :
    (fuel a : Nat) → ReqResult
  | 0, _ => { attempts := 0, sleeps := [], outcome := .ok none }
  | fuel + 1, a =>
    match script a with
    | .connErr =>
        if a < maxRetries - 1 then
          .after (3 * 2 ^ a) (makeApiRequestLoop script maxRetries fuel (a + 1))
        else
          .done [] (.error .networkError)
    | .resp status body =>
        if status = 429 then
          let wait := min 60 (5 * 2 ^ a)
          if a = maxRetries - 1 then
            .done [wait] (.error (.rateLimitError wait))
          else
            .after wait (makeApiRequestLoop script maxRetries fuel (a + 1))
        else if 400 ≤ status then
          -- `response.raise_for_status()` → wrapped into `APIError`
          .done [] (.error (.apiError (some status)))
        else
          match body with
          | .error () => .done [] (.error .dataParsingError)
          | .ok data => .done [] (.ok (some data))

/-- `make_api_request(url, max_retries)` (src/utils.py lines 71–159),
with the network abstracted into `script`. -/
def makeApiRequest (script : Nat → AttemptOutcome) (maxRetries : Nat) :
    ReqResult :=
  makeApiRequestLoop script maxRetries maxRetries 0

/-- The loop body of `make_api_request_async` (src/utils.py lines
195–263).  It differs from the blocking variant only in how an HTTP
error status is turned into `APIError` (`response.status >= 400`
checked by hand instead of `raise_for_status`) — the resulting control
flow is the same; the status-429, success, JSON-parse-failure,
network-error and exhausted-retry paths all coincide structurally. -/
def makeApiRequestAsyncLoop (script : Nat → AttemptOutcome) (maxRetries : Nat) :
    (fuel a : Nat) → ReqResult
  | 0, _ => { attempts := 0, sleeps := [], outcome := .ok none }
  | fuel + 1, a =>
    match script a with
    | .connErr =>
        if a < maxRetries - 1 then
          .after (3 * 2 ^ a)
            (makeApiRequestAsyncLoop script maxRetries fuel (a + 1))
        else
          .done [] (.error .networkError)
    | .resp status body =>
        if status = 429 then
          let wait := min 60 (5 * 2 ^ a)
          if a = maxRetries - 1 then
            .done [wait] (.error (.rateLimitError wait))
          else
            .after wait (makeApiRequestAsyncLoop script maxRetries fuel (a + 1))
        else if 400 ≤ status then
          -- `raise APIError(error_msg, response.status)` — note: a plain
          -- `APIError` carrying the status, NOT a `ResourceNotFoundError`,
          -- even when the status is 404 (src/utils.py lines 211–216).
          .done [] (.error (.apiError (some status)))
        else
          match body with
          | .error () => .done [] (.error .dataParsingError)
          | .ok data => .done [] (.ok (some data))

/-- `make_api_request_async(session, url, max_retries)`. -/
def makeApiRequestAsync (script : Nat → AttemptOutcome) (maxRetries : Nat) :
    ReqResult :=
  makeApiRequestAsyncLoop script maxRetries maxRetries 0

/-- A server that answers 429 on the first two attempts and 200 with
body `j` afterwards. -/
def script429twice (j : JVal) : Nat → AttemptOutcome :=
  fun a => if a < 2 then .resp 429 (.ok .null) else .resp 200 (.ok j)

/-- A server that always answers 429. -/
def scriptAlways429 : Nat → AttemptOutcome := fun _ => .resp 429 (.ok .null)

/-- A server that always fails with a connection/timeout error. -/
def scriptAlwaysConnErr : Nat → AttemptOutcome := fun _ => .connErr

/-- A server that answers 404 immediately. -/
def script404 : Nat → AttemptOutcome := fun _ => .resp 404 (.ok .null)

/-! ## Generic association lists (for file systems, heaps, stores) -/

/-- First binding of `k` in an association list. -/
def alookup {α β : Type} [DecidableEq α] (l : List (α × β)) (k : α) :
    Option β :=
  match l with
  | [] => none
  | (k', v) :: rest => if k' = k then some v else alookup rest k

/-! ## `src/match_fetcher.py` — finished-match filtering -/

/-- `v == s` for a Python value compared against a string literal. -/
def jvalEqStr (v : JVal) (s : String) : Bool :=
  match v with
  | .str t => t == s
  | _ => false

/-- Treat a JSON value as a Python list (`len`/iteration); non-list shapes
(on which Python would raise) have no events. -/
def asList (v : JVal) : List JVal :=
  match v with
  | .arr l => l
  | _ => []

/-- The filter predicate of `_filter_finished_matches`
(src/match_fetcher.py lines 67–71):
`event.get("status", {}).get("description") == "Ended" and
 event.get("status", {}).get("type") == "finished"`. -/
def isFinishedEvent (e : JVal) : Bool :=
  jvalEqStr ((getObj (getD e "status" (.obj [])) "description").getD .null)
      "Ended"
    && jvalEqStr ((getObj (getD e "status" (.obj [])) "type").getD .null)
      "finished"

/-- `_filter_finished_matches(data)` (src/match_fetcher.py lines 48–81),
value-level: returns the filtered dict, the total event count and the
finished event count. -/
def filterFinishedMatches (data : PyDict) : PyDict × Nat × Nat :=
  if data.isEmpty || (lookupKey data "events").isNone then (data, 0, 0)
  else
    let evs := asList ((lookupKey data "events").getD (.arr []))
    let finishedEvents := evs.filter isFinishedEvent
    -- `filtered_data = data.copy()`, `filtered_data["events"] = finished_events`
    let filtered := setKey data "events" (.arr finishedEvents)
    -- `if "roundInfo" in data and "round" in data.get("roundInfo", {})`
    let filtered :=
      match (lookupKey data "roundInfo").bind (fun ri => getObj ri "round") with
      | some r => setKey filtered "round" r
      | none => filtered
    (filtered, evs.length, finishedEvents.length)

/-- One row of the per-round CSV written by `_save_matches_data`
(src/match_fetcher.py lines 463–482).  The `strftime` formatting of
`start_time` is abstracted: we record the timestamp being formatted
(`none` when `startTimestamp` is falsy, matching the `else None`). -/
structure CsvRow : Type where
  matchId : Option JVal
  homeTeam : JVal
  awayTeam : JVal
  homeTeamId : Option JVal
  awayTeamId : Option JVal
  homeScore : Option JVal
  awayScore : Option JVal
  round : Option JVal
  status : Option JVal
  statusType : Option JVal
  startTimestamp : Option JVal
  startTime : Option JVal
  slug : Option JVal

/-- The dict built for one event in `_save_matches_data`'s CSV loop. -/
def csvRowOfEvent (e : JVal) : CsvRow where
  matchId := getObj e "id"
  homeTeam := (getObj (getD e "homeTeam" (.obj [])) "name").getD (.str "Unknown")
  awayTeam := (getObj (getD e "awayTeam" (.obj [])) "name").getD (.str "Unknown")
  homeTeamId := getObj (getD e "homeTeam" (.obj [])) "id"
  awayTeamId := getObj (getD e "awayTeam" (.obj [])) "id"
  homeScore := getObj (getD e "homeScore" (.obj [])) "current"
  awayScore := getObj (getD e "awayScore" (.obj [])) "current"
  round := getObj (getD e "roundInfo" (.obj [])) "round"
  status := getObj (getD e "status" (.obj [])) "description"
  statusType := getObj (getD e "status" (.obj [])) "type"
  startTimestamp := getObj e "startTimestamp"
  startTime :=
    if pyTruthy ((getObj e "startTimestamp").getD .null)
    then some ((getObj e "startTimestamp").getD .null) else none
  slug := getObj e "slug"

/-- The rows `_save_matches_data` writes to `round_{n}_matches.csv`
(src/match_fetcher.py lines 460–490): one per element of
`data["events"]`, in order (nothing is written when there are none). -/
def saveMatchesCsvRows (data : PyDict) : List CsvRow :=
  match lookupKey data "events" with
  | some v => (asList v).map csvRowOfEvent
  | none => []

/-- `_is_empty_round_data(data)` (src/match_fetcher.py lines 83–103). -/
def isEmptyRoundData (data : Option PyDict) : Bool :=
  match data with
  | none => true
  | some d =>
      if d.isEmpty then true  -- `if not data: return True`
      else
        let evs := (lookupKey d "events").getD (.arr [])
        if !pyTruthy evs
            && !pyTruthy ((lookupKey d "hasNextPage").getD (.bool false)) then
          true
        else false

/-! ### Environment-variable configuration defaults (src/utils.py 36–45) -/

/-- `MAX_CONCURRENT = int(os.getenv("MAX_CONCURRENT", "25"))`. -/
def MAX_CONCURRENT : Nat := 25

/-- `FETCH_ONLY_FINISHED = os.getenv("FETCH_ONLY_FINISHED", "true") ...`. -/
def FETCH_ONLY_FINISHED : Bool := true

/-- `SAVE_EMPTY_ROUNDS = os.getenv("SAVE_EMPTY_ROUNDS", "false") ...`. -/
def SAVE_EMPTY_ROUNDS : Bool := false

/-! ### `_fetch_and_save_round` (src/match_fetcher.py lines 242–347)

The season output directory is modelled as an association list from
file name to file content; a file content either parses as a JSON dict
or raises `json.JSONDecodeError`. -/

/-- Content of a file in the round output directory. -/
inductive FileContent : Type where
  /-- `json.load` raises `JSONDecodeError` (e.g. an empty file). -/
  | invalid : FileContent
  /-- `json.load` succeeds with this dict. -/
  | json (d : PyDict) : FileContent

/-- The round output directory. -/
abbrev RoundDir := List (String × FileContent)

/-- `os.path.join(output_dir, f"round_{round_num}.json")`. -/
def roundFileName (n : Nat) : String := "round_" ++ toString n ++ ".json"

/-- `round_{n}_full.json`, the file written by `_save_matches_data`
(src/match_fetcher.py line 453). -/
def roundFullFileName (n : Nat) : String :=
  "round_" ++ toString n ++ "_full.json"

/-- `os.remove(file_path)`. -/
def removeFile (fs : RoundDir) (name : String) : RoundDir :=
  fs.filter (fun e => e.1 != name)

/-- `open(file_path, "w")` + `json.dump`. -/
def writeFile (fs : RoundDir) (name : String) (c : FileContent) : RoundDir :=
  (name, c) :: fs.filter (fun e => e.1 != name)

/-- Result of one `_fetch_and_save_round` call. -/
structure RoundFetchResult : Type where
  /-- Directory contents after the call. -/
  fsAfter : RoundDir
  /-- The returned value (`None` or the round dict). -/
  result : Option PyDict
  /-- Number of upstream HTTP requests issued (0 or 1). -/
  networkCalls : Nat

/-- The part of `_fetch_and_save_round` after the local-file check
(src/match_fetcher.py lines 286–347): one network request, empty-data
handling, filtering and saving.  `net` is the outcome of
`make_api_request_async` (`.error e` = the exception raised). -/
def fetchAndSaveRoundNet (fs : RoundDir) (filePath : String)
    (net : Except SofaErr (Option PyDict)) : RoundFetchResult :=
  match net with
  | .error _ =>
      -- `except ResourceNotFoundError: return None` (benign) and
      -- `except Exception: return None` — either way `None`, no write.
      ⟨fs, none, 1⟩
  | .ok none => ⟨fs, none, 1⟩  -- empty data (`None`), nothing to save
  | .ok (some d) =>
      if isEmptyRoundData (some d) then
        -- `if SAVE_EMPTY_ROUNDS and data:` (dict truthiness)
        if SAVE_EMPTY_ROUNDS && !d.isEmpty then
          ⟨writeFile fs filePath (.json d), none, 1⟩
        else ⟨fs, none, 1⟩
      else
        let fr := filterFinishedMatches d
        let dataToSave := if FETCH_ONLY_FINISHED then fr.1 else d
        if fr.2.2 = 0 then
          if FETCH_ONLY_FINISHED then
            if SAVE_EMPTY_ROUNDS then
              ⟨writeFile fs filePath (.json dataToSave), none, 1⟩
            else ⟨fs, none, 1⟩
          else ⟨writeFile fs filePath (.json dataToSave), some dataToSave, 1⟩
        else ⟨writeFile fs filePath (.json dataToSave), some dataToSave, 1⟩

/-- `_fetch_and_save_round(semaphore_limit, session, league_id,
season_id, round_num, output_dir)` (src/match_fetcher.py lines
242–347).  Note the local-file check (lines 271–284) consults only
`round_{n}.json`, and a file that *decodes* but holds empty round data
is neither deleted nor re-fetched (early `return None`); only a
`JSONDecodeError` triggers delete-and-refetch. -/
def fetchAndSaveRound (fs : RoundDir) (roundNum : Nat)
    (net : Except SofaErr (Option PyDict)) : RoundFetchResult :=
  let filePath := roundFileName roundNum
  match alookup fs filePath with
  | some (.json d) =>
      if isEmptyRoundData (some d) then ⟨fs, none, 0⟩
      else ⟨fs, some d, 0⟩
  | some .invalid => fetchAndSaveRoundNet (removeFile fs filePath) filePath net
  | none => fetchAndSaveRoundNet fs filePath net

/-- How `_fetch_and_save_round` classifies an exception raised by the
request (src/match_fetcher.py lines 338–347). -/
inductive RoundErrOutcome : Type where
  /-- `except ResourceNotFoundError` — "Tur bulunamadı (Sezon sonuna
  ulaşılmış olabilir)": benign end-of-season, `logger.debug`. -/
  | benignSeasonEnd : RoundErrOutcome
  /-- `except Exception` — "Tur çekilirken hata": generic failure,
  `logger.error`. -/
  | genericError : RoundErrOutcome
  deriving DecidableEq, Repr

/-- The exception dispatch of `_fetch_and_save_round`. -/
def roundExceptionDispatch (e : SofaErr) : RoundErrOutcome :=
  if isResourceNotFound e then .benignSeasonEnd else .genericError

/-! ## Per-batch concurrency structure

Both batch fetchers spawn one homogeneous task per work item
(`asyncio.create_task` in `fetch_all_rounds_async`, src/match_fetcher.py
lines 199–207; `fetch_with_retry` tasks in `fetch_matches_batch_async`,
src/match_data_fetcher.py lines 196–224).  Because tasks are
interchangeable for counting purposes, a batch's state is the number of
tasks that have not yet issued their request, are currently holding an
open request, and have finished. -/

/-- Counting state of one batch of identical fetch tasks. -/
structure BatchState : Type where
  /-- Tasks that have not entered their HTTP request yet. -/
  pending : Nat
  /-- Tasks whose HTTP request is currently in flight. -/
  inflight : Nat
  /-- Tasks whose request has completed. -/
  done : Nat
  deriving DecidableEq, Repr

/-- Steps available to the round-fetching batch
(`_fetch_and_save_round`): the request is performed directly, with no
gate — "Semaphore kullanmadan doğrudan işlemi gerçekleştir"
(src/match_fetcher.py line 286) — so a pending task may always start. -/
inductive RoundBatchStep : BatchState → BatchState → Prop where
  | start (p i d : Nat) : RoundBatchStep ⟨p + 1, i, d⟩ ⟨p, i + 1, d⟩
  | finish (p i d : Nat) : RoundBatchStep ⟨p, i + 1, d⟩ ⟨p, i, d + 1⟩

/-- Steps available to the match-detail batch: each task's request runs
inside `async with sem` where `sem = asyncio.Semaphore(max_concurrent)`
(src/match_data_fetcher.py lines 194–207), so a pending task may start
only while fewer than `limit` requests are in flight. -/
inductive SemBatchStep (limit : Nat) : BatchState → BatchState → Prop where
  | start (p i d : Nat) (h : i < limit) :
      SemBatchStep limit ⟨p + 1, i, d⟩ ⟨p, i + 1, d⟩
  | finish (p i d : Nat) : SemBatchStep limit ⟨p, i + 1, d⟩ ⟨p, i, d + 1⟩

/-- Reachability under the semaphore-gated step relation. -/
def semReachable (limit : Nat) (s s' : BatchState) : Prop :=
  Relation.ReflTransGen (SemBatchStep limit) s s'

/-- Reachability under the ungated round-batch step relation. -/
def roundReachable (s s' : BatchState) : Prop :=
  Relation.ReflTransGen RoundBatchStep s s'

/-! ## `src/match_data_fetcher.py` — per-match detail fetch -/

/-- Outcome of one sub-endpoint request inside
`_fetch_endpoint_async`. -/
inductive EndpointResp : Type where
  /-- HTTP 200 with this JSON body. -/
  | ok (v : JVal) : EndpointResp
  /-- A non-200 status (the function falls through). -/
  | httpErr (status : Nat) : EndpointResp
  /-- The request raised (caught by the `except` inside). -/
  | exn : EndpointResp

/-- `_fetch_endpoint_async(session, url, key)` (src/match_data_fetcher.py
lines 142–149): returns `(key, json)` on 200 and `(key, None)` on any
non-200 status or exception — it never raises. -/
def fetchEndpointAsync (r : EndpointResp) (key : String) :
    String × Option JVal :=
  (key,
    match r with
    | .ok v => some v
    | .httpErr _ => none
    | .exn => none)

/-- Outcome of the basic `GET /event/{match_id}` request inside
`_fetch_match_data_async`. -/
inductive BasicResp : Type where
  /-- HTTP 200; `data.get("event")` gives this (possibly missing)
  event object. -/
  | ok (event : Option PyDict) : BasicResp
  /-- HTTP 429: the function sleeps and raises. -/
  | rateLimited : BasicResp
  /-- Any other status: the function returns `None`. -/
  | failStatus (status : Nat) : BasicResp
  /-- The request itself raised; the outer `except` re-raises. -/
  | connFail : BasicResp

/-- What `_save_match_data(match_id, match_data)` persists
(src/match_data_fetcher.py lines 416–477): `full_data.json` holds the
whole dict; a per-type `{key}.json` file is written only for values
that are not `None`. -/
structure SavedMatch : Type where
  fullData : PyDict
  typeFiles : List (String × JVal)

/-- `_save_match_data`'s file contents for a given `match_data` dict. -/
def saveMatchData (matchData : PyDict) : SavedMatch where
  fullData := matchData
  typeFiles := matchData.filter (fun kv =>
    match kv.2 with
    | .null => false
    | _ => true)

/-- Result of `_fetch_match_data_async(session, match_id)`. -/
inductive MatchFetchOutcome : Type where
  /-- An exception propagated (re-raised for the retry mechanism). -/
  | raised : MatchFetchOutcome
  /-- Returned `None`: missing/unfinished match or failed status. -/
  | skipped : MatchFetchOutcome
  /-- Returned the `match_data` dict after persisting it. -/
  | fetched (matchData : PyDict) (saved : SavedMatch) : MatchFetchOutcome

/-- `_fetch_match_data_async(session, match_id)`
(src/match_data_fetcher.py lines 80–140): fetch the basic event, keep
only finished matches, fan out the 4 sub-fetches, merge their `(key,
data)` results into `match_data` (a failed sub-fetch contributes
`(key, None)`), persist, and return the dict. -/
def fetchMatchDataAsync (basic : BasicResp)
    (stats streaks form h2h : EndpointResp) : MatchFetchOutcome :=
  match basic with
  | .connFail => .raised
  | .rateLimited => .raised  -- `raise Exception("Rate limit exceeded")`
  | .failStatus _ => .skipped
  | .ok none => .skipped  -- `if not basic_data: return None`
  | .ok (some basicData) =>
      if basicData.isEmpty then .skipped  -- empty dict is falsy
      else
        let statusObj := (lookupKey basicData "status").getD (.obj [])
        let statusDesc := (getObj statusObj "description").getD (.str "")
        let statusType := (getObj statusObj "type").getD (.str "")
        if jvalEqStr statusDesc "Ended" && jvalEqStr statusType "finished" then
          let results :=
            [fetchEndpointAsync stats "statistics",
             fetchEndpointAsync streaks "team_streaks",
             fetchEndpointAsync form "pregame_form",
             fetchEndpointAsync h2h "h2h"]
          let matchData := results.foldl
            (fun d kv => setKey d kv.1 (kv.2.getD .null))
            [("basic", .obj basicData)]
          .fetched matchData (saveMatchData matchData)
        else .skipped  -- unfinished match

/-! ## `fetch_all_match_details` pre-filter and batch run

The on-disk match-detail tree `data/match_details/` is abstracted to:
* `nested`: one entry per *match directory* in the new structure
  `match_details/{league}/{season}/{match_id}/`, keyed by that path
  triple, whose value is `some content` when the directory contains a
  `full_data.json` with that content and `none` when it does not;
* `old`: likewise for the old flat structure `match_details/{match_id}/`.
The reserved `processed` subdirectory appears as a top-level name. -/

/-- Path of a match directory in the new structure. -/
abbrev DetailsPath := String × String × String

/-- The nested detail tree (value = `full_data.json` content, if present). -/
abbrev DetailsFS := List (DetailsPath × Option PyDict)

/-- The old flat structure. -/
abbrev OldFS := List (String × Option PyDict)

/-- `existing_details` as computed by `fetch_all_match_details`
(src/match_data_fetcher.py lines 1227–1252): walk each non-`processed`
league directory, each season directory, and collect every match-id
directory that contains `full_data.json`; then likewise for old-style
top-level match directories. -/
def existingDetails (fs : DetailsFS) (old : OldFS) : List String :=
  ((fs.filter (fun e => e.1.1 != "processed" && e.2.isSome)).map
      (fun e => e.1.2.2))
    ++ ((old.filter (fun e => e.1 != "processed" && e.2.isSome)).map
      (fun e => e.1))

/-- `match_ids_to_process = [id for id in match_ids if str(id) not in
existing_details]` (src/match_data_fetcher.py line 1255). -/
def matchIdsToProcess (fs : DetailsFS) (old : OldFS) (ids : List String) :
    List String :=
  ids.filter (fun id => !(existingDetails fs old).contains id)

/-- The top-level directory names of `match_details/`: league
directories of the new structure, old-style match directories, and
`processed`.  This is what `os.listdir(details_dir)` sees in
`fetch_matches_batch_async` (src/match_data_fetcher.py lines 155–163) —
note it is *not* the set of nested match ids. -/
def topLevelDirs (fs : DetailsFS) (old : OldFS) : List String :=
  fs.map (fun e => e.1.1) ++ old.map (fun e => e.1) ++ ["processed"]

/-- The secondary (flat) pre-filter applied inside
`fetch_matches_batch_async` itself. -/
def batchFlatFilter (fs : DetailsFS) (old : OldFS) (ids : List String) :
    List String :=
  ids.filter (fun id => !(topLevelDirs fs old).contains id)

/-- Result of one `fetch_all_match_details` run over the modelled tree. -/
structure BatchRunResult : Type where
  /-- `match_ids_to_process` after the tree-walking pre-filter. -/
  toProcess : List String
  /-- Ids for which at least one upstream HTTP request is issued
  (every id surviving both filters issues its basic request). -/
  requested : List String
  /-- The detail tree after the batch (new saves shadow old entries). -/
  fsAfter : DetailsFS

/-- `fetch_all_match_details` → `fetch_matches_batch_parallel` →
`fetch_matches_batch_async` (src/match_data_fetcher.py lines 151–237
and 1107–1283), with the network abstracted to `ρ`: for a processed id,
`ρ id = some (league, season, matchData)` when the fetch succeeds for a
finished match (the directory names derived from its basic data) and
`none` when the match is skipped or fails.  Splitting into size-100
sub-batches does not change which ids are requested or saved and is
omitted. -/
def fetchAllMatchDetailsRun (fs : DetailsFS) (old : OldFS)
    (ids : List String) (ρ : String → Option (String × String × PyDict)) :
    BatchRunResult :=
  let toProcess := matchIdsToProcess fs old ids
  let requested := batchFlatFilter fs old toProcess
  let newEntries : DetailsFS := requested.filterMap (fun id =>
    (ρ id).map (fun lsd => ((lsd.1, lsd.2.1, id), some lsd.2.2)))
  ⟨toProcess, requested, newEntries ++ fs⟩

/-! ## `src/season_fetcher.py` — `_get_sortable_year_value`

Python's `int()` and `float()` constructors are modelled on the
argument's character list: surrounding whitespace is stripped, then an
optional sign followed by digits (`int`), or digits with an optional
fractional part (`float`; the exponent/`inf`/`nan` forms, which never
appear in season-year strings, are outside the model).  `none` means
the constructor raises `ValueError`. -/

/-- `str.strip()` (ASCII whitespace suffices for season strings). -/
def pyStrip (cs : List Char) : List Char :=
  ((cs.dropWhile Char.isWhitespace).reverse.dropWhile Char.isWhitespace).reverse

/-- Numeric value of a digit string. -/
def digitsVal (cs : List Char) : Nat :=
  cs.foldl (fun a c => 10 * a + (c.toNat - 48)) 0

/-- `int(s)` for a pre-stripped character list. -/
def pyIntCore (cs : List Char) : Option Int :=
  match cs with
  | '-' :: rest =>
      if !rest.isEmpty && rest.all Char.isDigit
      then some (-(digitsVal rest : Int)) else none
  | '+' :: rest =>
      if !rest.isEmpty && rest.all Char.isDigit
      then some (digitsVal rest : Int) else none
  | _ =>
      if !cs.isEmpty && cs.all Char.isDigit
      then some (digitsVal cs : Int) else none

/-- `int(s)`. -/
def pyIntParse (cs : List Char) : Option Int := pyIntCore (pyStrip cs)

/-- `float(s)` for a pre-stripped, unsigned character list. -/
def pyFloatCore (cs : List Char) : Option Rat :=
  let ip := cs.takeWhile Char.isDigit
  let rest := cs.dropWhile Char.isDigit
  match rest with
  | [] => if ip.isEmpty then none else some (digitsVal ip : Rat)
  | '.' :: fp =>
      if fp.all Char.isDigit && !(ip.isEmpty && fp.isEmpty)
      then some ((digitsVal ip : Rat) + (digitsVal fp : Rat) / 10 ^ fp.length)
      else none
  | _ => none

/-- `float(s)`. -/
def pyFloatParse (cs : List Char) : Option Rat :=
  match pyStrip cs with
  | '-' :: rest => (pyFloatCore rest).map Neg.neg
  | '+' :: rest => pyFloatCore rest
  | stripped => pyFloatCore stripped

/-- `s.split(sep)` for a single-character separator. -/
def splitOnChar (sep : Char) : List Char → List (List Char)
  | [] => [[]]
  | c :: rest =>
      let r := splitOnChar sep rest
      if c = sep then [] :: r
      else
        match r with
        | [] => [[c]]
        | h :: t => (c :: h) :: t

/-- `_get_sortable_year_value(year_str)` (src/season_fetcher.py lines
463–512) over the character list of the argument.  `.error ()` marks an
uncaught `ValueError` escaping the function: the `int()` calls of the
two-digit branch (lines 485–486) and the `float()` call of the
four-digit branch (line 500) are *not* inside a `try`, unlike the two
fallback branches (lines 502–506 and 509–512). -/
def getSortableYearValue (yearStr : List Char) : Except Unit Rat :=
  if yearStr.isEmpty || yearStr == ['0'] then .ok 0
  else if yearStr.contains '/' then
    let parts := splitOnChar '/' yearStr
    let startYear := pyStrip (parts.headD [])
    let endYear := if parts.length > 1 then pyStrip (parts.getD 1 []) else []
    if startYear.length == 2 && endYear.length == 2 then
      match pyIntParse startYear, pyIntParse endYear with
      | some startInt, some endInt =>
          if startInt > endInt then .ok ((2000 + endInt : Int) : Rat)
          else if startInt < 50 then .ok ((2000 + startInt : Int) : Rat)
          else .ok ((1900 + startInt : Int) : Rat)
      | _, _ => .error ()  -- `int()` raised, uncaught
    else if startYear.length == 4 then
      match pyFloatParse startYear with
      | some v => .ok v
      | none => .error ()  -- `float()` raised, uncaught
    else
      match pyFloatParse startYear with
      | some v => .ok v
      | none => .ok 0  -- `except ValueError: return 0.0`
  else
    match pyFloatParse yearStr with
    | some v => .ok v
    | none => .ok 0  -- `except ValueError: return 0.0`

/-- `_get_sortable_year_value` on a `str`. -/
def getSortableYearValueS (s : String) : Except Unit Rat :=
  getSortableYearValue s.toList

/-- The JSON value a sub-endpoint contributes to `match_data`:
its body on success, `None` (= `null` in `full_data.json`) otherwise. -/
def endpointData (r : EndpointResp) : JVal :=
  match r with
  | .ok v => v
  | .httpErr _ => .null
  | .exn => .null

/-! ## A reference heap for mutation (frame) reasoning

`_filter_finished_matches` receives a live `dict` object.  To state
that it does not mutate its argument we run it on a small heap of
dict objects: `data.copy()` allocates a fresh reference and the two
item assignments write through the *fresh* reference only. -/

/-- A heap of Python dict objects. -/
structure Heap : Type where
  /-- Reference → current dict value. -/
  store : List (Nat × PyDict)
  /-- Next fresh reference. -/
  next : Nat

/-- Dereference. -/
def Heap.get (h : Heap) (r : Nat) : Option PyDict :=
  alookup h.store r

/-- `data.copy()`: allocate a fresh object with the same value. -/
def Heap.alloc (h : Heap) (d : PyDict) : Heap × Nat :=
  (⟨(h.next, d) :: h.store, h.next + 1⟩, h.next)

/-- Apply `f` to every binding of reference `r` (in-place mutation of
the object behind `r`). -/
def updateRef (l : List (Nat × PyDict)) (r : Nat) (f : PyDict → PyDict) :
    List (Nat × PyDict) :=
  match l with
  | [] => []
  | (a, b) :: tl =>
      if a = r then (a, f b) :: updateRef tl r f
      else (a, b) :: updateRef tl r f

/-- `obj[k] = v` on the object behind reference `r`. -/
def Heap.setItem (h : Heap) (r : Nat) (k : String) (v : JVal) : Heap :=
  ⟨updateRef h.store r (fun d => setKey d k v), h.next⟩

/-- All live references are below `next`. -/
def Heap.wf (h : Heap) : Prop := ∀ e ∈ h.store, e.1 < h.next

/-- `_filter_finished_matches(data)` as a heap program
(src/match_fetcher.py lines 48–81): the early return hands back the
*same* reference; otherwise `data.copy()` allocates a fresh dict and
`filtered_data["events"]` / `filtered_data["round"]` assign through the
fresh reference.  Returns (heap, reference to returned dict, total,
finished count). -/
def filterFinishedMatchesH (h : Heap) (r : Nat) : Heap × Nat × Nat × Nat :=
  match h.get r with
  | none => (h, r, 0, 0)  -- dangling reference: cannot arise for callers
  | some data =>
      if data.isEmpty || (lookupKey data "events").isNone then (h, r, 0, 0)
      else
        let evs := asList ((lookupKey data "events").getD (.arr []))
        let finishedEvents := evs.filter isFinishedEvent
        let alloced := h.alloc data
        let h2 := alloced.1.setItem alloced.2 "events" (.arr finishedEvents)
        let h3 :=
          match (lookupKey data "roundInfo").bind (fun ri => getObj ri "round") with
          | some rv => h2.setItem alloced.2 "round" rv
          | none => h2
        (h3, alloced.2, evs.length, finishedEvents.length)

/-! ## Concrete example data (witnesses and counterexamples) -/

/-- A finished event (`Ended`/`finished`). -/
def evEnded : JVal :=
  .obj [("id", .num 101),
        ("status", .obj [("description", .str "Ended"), ("type", .str "finished")]),
        ("homeTeam", .obj [("name", .str "A"), ("id", .num 1)]),
        ("awayTeam", .obj [("name", .str "B"), ("id", .num 2)]),
        ("homeScore", .obj [("current", .num 2)]),
        ("awayScore", .obj [("current", .num 0)]),
        ("startTimestamp", .num 1700000000),
        ("slug", .str "a-b")]

/-- An upcoming event (`Not started`/`notstarted`). -/
def evNotStarted : JVal :=
  .obj [("id", .num 102),
        ("status", .obj [("description", .str "Not started"), ("type", .str "notstarted")])]

/-- A live event (`1st half`/`inprogress`). -/
def evInProgress : JVal :=
  .obj [("id", .num 103),
        ("status", .obj [("description", .str "1st half"), ("type", .str "inprogress")])]

/-- A round payload with mixed statuses and round info. -/
def exampleRound : PyDict :=
  [("events", .arr [evEnded, evNotStarted, evInProgress]),
   ("roundInfo", .obj [("round", .num 7)]),
   ("hasNextPage", .bool false)]

/-- A round directory holding only `round_3_full.json`, with non-empty
valid content. -/
def fsOnlyFull : RoundDir :=
  [(roundFullFileName 3, .json exampleRound)]

/-- A round directory whose `round_3.json` decodes to an *empty* round
(`{"events": []}`). -/
def fsEmptyJson : RoundDir :=
  [(roundFileName 3, .json [("events", .arr [])])]

/-- A round directory whose `round_3.json` holds the non-empty example
round. -/
def fsGoodJson : RoundDir :=
  [(roundFileName 3, .json exampleRound)]

/-- A round directory whose `round_3.json` fails to decode. -/
def fsBadJson : RoundDir :=
  [(roundFileName 3, .invalid)]

/-- A detail tree with one persisted match `111` under league `PL`. -/
def exampleDetailsFS : DetailsFS :=
  [(("PL", "season_24_25", "111"), some [("basic", evEnded)])]

/-- A finished basic event payload for the detail fetcher. -/
def exampleBasicData : PyDict :=
  [("id", .num 111),
   ("status", .obj [("description", .str "Ended"), ("type", .str "finished")])]

/-! ## Helper lemmas -/

theorem lookupKey_setKey_same (d : PyDict) (k : String) (v : JVal) :
    lookupKey (setKey d k v) k = some v := by
  induction d with
  | nil => simp [setKey, lookupKey]
  | cons hd tl ih =>
      obtain ⟨k', v'⟩ := hd
      by_cases h : k' = k
      · simp [setKey, lookupKey, h]
      · simp [setKey, lookupKey, h, ih]

theorem lookupKey_setKey_other (d : PyDict) (k k' : String) (v : JVal)
    (hne : k' ≠ k) : lookupKey (setKey d k v) k' = lookupKey d k' := by
  have hkk' : k ≠ k' := Ne.symm hne
  induction d with
  | nil => simp [setKey, lookupKey, hkk']
  | cons hd tl ih =>
      obtain ⟨k₀, v₀⟩ := hd
      by_cases h : k₀ = k
      · subst h
        simp [setKey, lookupKey, hkk']
      · by_cases h' : k₀ = k'
        · simp [setKey, lookupKey, h, h', hne]
        · simp [setKey, lookupKey, h, h', ih]

theorem alookup_eq_some_mem {α β : Type} [DecidableEq α]
    {l : List (α × β)} {k : α} {v : β} (h : alookup l k = some v) :
    (k, v) ∈ l := by
  induction l with
  | nil => simp [alookup] at h
  | cons hd tl ih =>
      obtain ⟨k', v'⟩ := hd
      by_cases hk : k' = k
      · subst hk
        simp [alookup] at h
        simp [h]
      · simp [alookup, hk] at h
        exact List.mem_cons_of_mem _ (ih h)

theorem alookup_append_of_forall_ne {α β : Type} [DecidableEq α]
    (l₁ l₂ : List (α × β)) (k : α) (h : ∀ e ∈ l₁, e.1 ≠ k) :
    alookup (l₁ ++ l₂) k = alookup l₂ k := by
  induction l₁ with
  | nil => simp
  | cons hd tl ih =>
      obtain ⟨k', v'⟩ := hd
      have hne : k' ≠ k := h (k', v') (List.mem_cons_self _ _)
      simp only [List.cons_append, alookup, if_neg hne]
      exact ih fun e he => h e (List.mem_cons_of_mem _ he)

/-- Invariant: under the semaphore gate the in-flight count never
exceeds the limit. -/
theorem semBatch_inflight_le (limit : Nat) (n : Nat) (s : BatchState)
    (h : semReachable limit ⟨n, 0, 0⟩ s) : s.inflight ≤ limit := by
  induction h with
  | refl => simp
  | tail _ hstep ih =>
      cases hstep with
      | start p i d hlt => exact hlt
      | finish p i d => exact Nat.le_of_succ_le ih

/-- In the ungated round batch, any `k` of the pending tasks can all
enter their requests. -/
theorem roundBatch_reach_inflight (p i d k : Nat) (hk : k ≤ p) :
    roundReachable ⟨p, i, d⟩ ⟨p - k, i + k, d⟩ := by
  induction k with
  | zero =>
      simp only [Nat.sub_zero, Nat.add_zero]
      exact Relation.ReflTransGen.refl
  | succ k ih =>
      have hk' : k ≤ p := Nat.le_of_succ_le hk
      refine Relation.ReflTransGen.tail (ih hk') ?_
      have hpk : p - k = (p - (k + 1)) + 1 := by omega
      rw [hpk]
      exact RoundBatchStep.start (p - (k + 1)) (i + k) d


theorem alookup_update_ne (l : List (Nat × PyDict)) (r r' : Nat)
    (f : PyDict → PyDict) (hne : r' ≠ r) :
    alookup (updateRef l r f) r' = alookup l r' := by
  induction l with
  | nil => rfl
  | cons hd tl ih =>
      obtain ⟨a, b⟩ := hd
      by_cases ha : a = r
      · subst ha
        simp [updateRef, alookup, Ne.symm hne, ih]
      · by_cases ha' : a = r'
        · simp [updateRef, alookup, ha, ha', hne]
        · simp [updateRef, alookup, ha, ha', ih]

theorem alookup_update_eq (l : List (Nat × PyDict)) (r : Nat)
    (f : PyDict → PyDict) :
    alookup (updateRef l r f) r = (alookup l r).map f := by
  induction l with
  | nil => rfl
  | cons hd tl ih =>
      obtain ⟨a, b⟩ := hd
      by_cases ha : a = r
      · subst ha
        simp [updateRef, alookup]
      · simp [updateRef, alookup, ha, ih]

theorem heap_get_lt_next {h : Heap} {r : Nat} {d : PyDict}
    (hwf : h.wf) (hg : h.get r = some d) : r < h.next :=
  hwf (r, d) (alookup_eq_some_mem hg)

theorem heap_get_setItem_other (h : Heap) (r r' : Nat) (k : String)
    (v : JVal) (hne : r' ≠ r) : (h.setItem r k v).get r' = h.get r' :=
  alookup_update_ne h.store r r' (fun d => setKey d k v) hne

theorem heap_get_setItem_same (h : Heap) (r : Nat) (k : String) (v : JVal) :
    (h.setItem r k v).get r = (h.get r).map (fun d => setKey d k v) :=
  alookup_update_eq h.store r (fun d => setKey d k v)

theorem makeApiRequestAsyncLoop_eq_loop (script : Nat → AttemptOutcome)
    (maxRetries : Nat) : ∀ fuel a,
    makeApiRequestAsyncLoop script maxRetries fuel a =
      makeApiRequestLoop script maxRetries fuel a := by
  intro fuel
  induction fuel with
  | zero => intro a; rfl
  | succ f ih =>
      intro a
      simp only [makeApiRequestAsyncLoop, makeApiRequestLoop, ih]

theorem connErrLoop_eq (maxRetries : Nat) : ∀ fuel a,
    a + fuel = maxRetries → 1 ≤ fuel →
    makeApiRequestLoop scriptAlwaysConnErr maxRetries fuel a =
      ⟨fuel, (List.range (fuel - 1)).map (fun i => 3 * 2 ^ (a + i)),
        .error .networkError⟩ := by
  intro fuel
  induction fuel with
  | zero => intro a _ h1; exact absurd h1 (by omega)
  | succ f ih =>
      intro a hsum _
      cases f with
      | zero =>
          have hge : ¬ a < maxRetries - 1 := by omega
          simp [makeApiRequestLoop, scriptAlwaysConnErr, hge, ReqResult.done]
      | succ f' =>
          have hlt : a < maxRetries - 1 := by omega
          have hrec := ih (a + 1) (by omega) (by omega)
          have hstep :
              makeApiRequestLoop scriptAlwaysConnErr maxRetries (f' + 1 + 1) a =
                ReqResult.after (3 * 2 ^ a)
                  (makeApiRequestLoop scriptAlwaysConnErr maxRetries (f' + 1)
                    (a + 1)) := by
            conv_lhs => rw [makeApiRequestLoop]
            simp [scriptAlwaysConnErr, hlt]
          have hlist :
              (List.range (f' + 1 + 1 - 1)).map (fun i => 3 * 2 ^ (a + i)) =
                3 * 2 ^ a ::
                  (List.range (f' + 1 - 1)).map (fun i => 3 * 2 ^ (a + 1 + i)) := by
            simp only [Nat.add_sub_cancel]
            rw [List.range_succ_eq_map]
            simp only [List.map_cons, Nat.add_zero, List.map_map]
            refine congrArg _ (List.map_congr_left ?_)
            intro i _
            simp only [Function.comp_apply]
            have hexp : a + (i + 1) = a + 1 + i := by omega
            rw [hexp]
          rw [hstep, hrec]
          simp only [Nat.add_sub_cancel] at hlist
          simp [ReqResult.after, hlist]

theorem fetchAndSaveRoundNet_networkCalls (fs : RoundDir)
    (filePath : String) (net : Except SofaErr (Option PyDict)) :
    (fetchAndSaveRoundNet fs filePath net).networkCalls = 1 := by
  cases net with
  | error e => rfl
  | ok o =>
      cases o with
      | none => rfl
      | some d =>
          simp only [fetchAndSaveRoundNet]
          split_ifs <;> rfl

theorem getSortableYearValue_no_slash (cs : List Char) (h : '/' ∉ cs) :
    getSortableYearValue cs = .ok ((pyFloatParse cs).getD 0) := by
  by_cases h0 : (cs.isEmpty || cs == ['0']) = true
  · have hc : cs = [] ∨ cs = ['0'] := by
      rcases Bool.or_eq_true_iff.mp h0 with h1 | h1
      · exact Or.inl (List.isEmpty_iff.mp h1)
      · exact Or.inr (by simpa using h1)
    rcases hc with rfl | rfl <;> rfl
  · have h1 : ¬ (cs.contains '/' = true) := by
      simpa using h
    unfold getSortableYearValue
    rw [if_neg h0, if_neg h1]
    cases hp : pyFloatParse cs <;> simp [hp]

/-! ## Claim theorems -/

/-- C4: with `max_retries = 3`, a server answering 429 on the first two
attempts and 200 (with JSON body `j`) on the third makes the request
layer perform exactly 3 attempts, sleep `min(60, 5·2^attempt)` seconds
after each 429 — 5 then 10, non-decreasing — and return the successful
JSON result; a 429 on every attempt instead sleeps 5, 10, 20 and raises
`RateLimitError` on the final attempt.  Both the blocking and the
asynchronous variants behave this way. -/
theorem c4_rate_limit_retry_backoff (j : JVal) :
    makeApiRequest (script429twice j) 3 = ⟨3, [5, 10], .ok (some j)⟩
    ∧ makeApiRequestAsync (script429twice j) 3 = ⟨3, [5, 10], .ok (some j)⟩
    ∧ min 60 (5 * 2 ^ 0) = 5 ∧ min 60 (5 * 2 ^ 1) = 10 ∧ (5 : Nat) ≤ 10
    ∧ makeApiRequest scriptAlways429 3 =
        ⟨3, [5, 10, 20], .error (.rateLimitError 20)⟩
    ∧ makeApiRequestAsync scriptAlways429 3 =
        ⟨3, [5, 10, 20], .error (.rateLimitError 20)⟩ :=
  ⟨rfl, rfl, rfl, rfl, by norm_num, rfl, rfl⟩

/-- C5: an HTTP 404 response makes `make_api_request_async` raise a
plain `APIError` carrying status 404 — not the distinct
`ResourceNotFoundError` that `exceptions.py` defines for 404 and that
`_fetch_and_save_round` matches on — so the round fetcher's
`except ResourceNotFoundError` (benign end-of-season) never fires and
the 404 lands in the generic `except Exception` branch.  The blocking
variant likewise raises a plain `APIError`. -/
theorem c5_404_raises_generic_api_error :
    (makeApiRequestAsync script404 3).outcome = .error (.apiError (some 404))
    ∧ (makeApiRequest script404 3).outcome = .error (.apiError (some 404))
    ∧ isResourceNotFound (.apiError (some 404)) = false
    ∧ roundExceptionDispatch (.apiError (some 404)) = .genericError :=
  ⟨rfl, rfl, rfl, rfl⟩

/-- C6 (counterexample): with connection errors on every attempt and
`max_retries = 3`, the asynchronous variant *raises* `NetworkError`
after backoffs 3 and 6 seconds — it does not return the sentinel `None`
without raising, contrary to the claimed asymmetry. -/
theorem c6_async_raises_counterexample :
    makeApiRequestAsync scriptAlwaysConnErr 3 = ⟨3, [3, 6], .error .networkError⟩
    ∧ (makeApiRequestAsync scriptAlwaysConnErr 3).outcome ≠ .ok none :=
  ⟨rfl, fun hq => nomatch hq⟩

/-- C6 (amended): on connection/timeout errors both request variants
back off `3·2^attempt` seconds between attempts and, after exhausting
`max_retries ≥ 1` attempts, both *raise* `NetworkError` — the two
variants' exhausted-retry outcomes are symmetric. -/
theorem c6_conn_error_backoff_symmetric (n : Nat) (h : 1 ≤ n) :
    makeApiRequest scriptAlwaysConnErr n =
      ⟨n, (List.range (n - 1)).map (fun a => 3 * 2 ^ a), .error .networkError⟩
    ∧ makeApiRequestAsync scriptAlwaysConnErr n =
        makeApiRequest scriptAlwaysConnErr n := by
  have hb := connErrLoop_eq n n 0 (by omega) h
  constructor
  · simpa [makeApiRequest] using hb
  · simp [makeApiRequest, makeApiRequestAsync, makeApiRequestAsyncLoop_eq_loop]

/-- C6 (witness): the amended statement at `max_retries = 3`. -/
theorem c6_conn_error_backoff_symmetric_witness :
    makeApiRequest scriptAlwaysConnErr 3 = ⟨3, [3, 6], .error .networkError⟩
    ∧ makeApiRequestAsync scriptAlwaysConnErr 3 =
        makeApiRequest scriptAlwaysConnErr 3 :=
  ⟨(c6_conn_error_backoff_symmetric 3 (by norm_num)).1.trans rfl,
   (c6_conn_error_backoff_symmetric 3 (by norm_num)).2⟩

/-- C2: the round-fetching batch spawns 40 round tasks
(`max_rounds = 40`) that perform their requests without any gate, so
the state with 26 requests simultaneously in flight is reachable, which
exceeds the configured `MAX_CONCURRENT = 25` that the function's own
docstring and log line promise to enforce.  (The match-detail batch,
which does wrap its requests in `asyncio.Semaphore(max_concurrent)`,
does satisfy its bound — see `semBatch_inflight_le`.) -/
theorem c2_round_batch_exceeds_limit :
    roundReachable ⟨40, 0, 0⟩ ⟨14, 26, 0⟩ ∧ MAX_CONCURRENT < 26 := by
  constructor
  · simpa using roundBatch_reach_inflight 40 0 0 26 (by norm_num)
  · norm_num [MAX_CONCURRENT]

/-- C9 (counterexample): `_get_sortable_year_value("ab/cd")` raises
`ValueError` (the `int()` calls of the two-digit slash branch are not
guarded by a `try`), so the function is not total and does not return
`0.0` on every unsupported input. -/
theorem c9_invalid_slash_raises :
    getSortableYearValueS "ab/cd" = .error () := rfl

/-- C9 (amended): `_get_sortable_year_value` orders `"24/25"` above
`"23/24"` (values 2024 and 2023), maps `"99/00"` to 2000 (century
rollover) and `"2024"` to 2024; and on every input *without* a slash it
is total — returning `0.0` whenever `float()` fails.  (Slash inputs
whose two-character or four-character start segment is non-numeric
raise `ValueError` instead, as the counterexample shows.) -/
theorem c9_sortable_year_amended :
    getSortableYearValueS "24/25" = .ok 2024
    ∧ getSortableYearValueS "23/24" = .ok 2023
    ∧ ((2023 : Rat) < 2024)
    ∧ getSortableYearValueS "99/00" = .ok 2000
    ∧ getSortableYearValueS "2024" = .ok 2024
    ∧ (∀ s : String, '/' ∉ s.toList →
        getSortableYearValueS s ≠ .error ())
    ∧ (∀ s : String, '/' ∉ s.toList →
        pyFloatParse s.toList = none → getSortableYearValueS s = .ok 0) := by
  refine ⟨rfl, rfl, by norm_num, rfl, rfl, ?_, ?_⟩
  · intro s h
    rw [getSortableYearValueS, getSortableYearValue_no_slash s.toList h]
    simp
  · intro s h hp
    rw [getSortableYearValueS, getSortableYearValue_no_slash s.toList h, hp]
    rfl

/-- C9 (witness): the amended statement's universal parts at the
unsupported input `"foo"`. -/
theorem c9_sortable_year_amended_witness :
    getSortableYearValueS "foo" = .ok 0
    ∧ getSortableYearValueS "bar" ≠ .error () :=
  ⟨c9_sortable_year_amended.2.2.2.2.2.2 "foo" (by decide) rfl,
   c9_sortable_year_amended.2.2.2.2.2.1 "bar" (by decide)⟩

/-- C3: for every round payload whose `events` entry is a list, the
filter retains exactly those events with `status.description = "Ended"`
and `status.type = "finished"`, returns `(total_events,
finished_count)` as the lengths of the original and the retained list,
and the persisted round CSV contains one row per retained event and
nothing else. -/
theorem c3_finished_filter_exact (data : PyDict) (evs : List JVal)
    (h : lookupKey data "events" = some (.arr evs)) :
    (filterFinishedMatches data).2.1 = evs.length
    ∧ (filterFinishedMatches data).2.2 = (evs.filter isFinishedEvent).length
    ∧ lookupKey (filterFinishedMatches data).1 "events" =
        some (.arr (evs.filter isFinishedEvent))
    ∧ (∀ e, e ∈ evs.filter isFinishedEvent ↔ e ∈ evs ∧
        (jvalEqStr ((getObj (getD e "status" (.obj [])) "description").getD .null)
            "Ended" = true
         ∧ jvalEqStr ((getObj (getD e "status" (.obj [])) "type").getD .null)
            "finished" = true))
    ∧ saveMatchesCsvRows (filterFinishedMatches data).1 =
        (evs.filter isFinishedEvent).map csvRowOfEvent := by
  have hne : data.isEmpty = false := by
    cases data with
    | nil => simp [lookupKey] at h
    | cons hd tl => rfl
  have hcond : ¬ ((data.isEmpty || (lookupKey data "events").isNone) = true) := by
    simp [hne, h]
  have hmain : filterFinishedMatches data =
      ((match (lookupKey data "roundInfo").bind (fun ri => getObj ri "round") with
        | some rv =>
            setKey (setKey data "events" (.arr (evs.filter isFinishedEvent)))
              "round" rv
        | none => setKey data "events" (.arr (evs.filter isFinishedEvent))),
       evs.length, (evs.filter isFinishedEvent).length) := by
    unfold filterFinishedMatches
    rw [if_neg hcond]
    simp [h, asList]
  have hevlookup : lookupKey (filterFinishedMatches data).1 "events" =
      some (.arr (evs.filter isFinishedEvent)) := by
    rw [hmain]
    cases hri : (lookupKey data "roundInfo").bind (fun ri => getObj ri "round") with
    | none => simp [lookupKey_setKey_same]
    | some rv =>
        simp only []
        rw [lookupKey_setKey_other _ "round" "events" rv (by decide)]
        exact lookupKey_setKey_same data "events" _
  refine ⟨by rw [hmain], by rw [hmain], hevlookup, ?_, ?_⟩
  · intro e
    simp [List.mem_filter, isFinishedEvent, Bool.and_eq_true]
  · unfold saveMatchesCsvRows
    rw [hevlookup]
    simp [asList]

/-- C3 (witness): a three-event round with statuses
`{Ended/finished, Not started/notstarted, 1st half/inprogress}` keeps
exactly the finished event; `(total, finished) = (3, 1)`; the CSV holds
exactly that event's row. -/
theorem c3_finished_filter_exact_witness :
    (filterFinishedMatches exampleRound).2.1 = 3
    ∧ (filterFinishedMatches exampleRound).2.2 = 1
    ∧ lookupKey (filterFinishedMatches exampleRound).1 "events" =
        some (.arr [evEnded])
    ∧ saveMatchesCsvRows (filterFinishedMatches exampleRound).1 =
        [csvRowOfEvent evEnded] := by
  have h := c3_finished_filter_exact exampleRound
    [evEnded, evNotStarted, evInProgress] rfl
  exact ⟨h.1.trans rfl, h.2.1.trans rfl, h.2.2.1.trans (by rfl),
    h.2.2.2.2.trans (by rfl)⟩

/-- C10: `_filter_finished_matches` does not mutate its input dict: run
on a heap, the object behind the argument reference still holds its
original value (including the unfiltered `events` list) after the call;
the returned dict is a fresh object that agrees with the input on every
top-level key other than `events` (replaced by the filtered list) and
`round` (set from `roundInfo.round` exactly when that field is present,
and untouched otherwise). -/
theorem c10_filter_does_not_mutate (h : Heap) (r : Nat) (data : PyDict)
    (evs : List JVal) (hwf : Heap.wf h) (hr : h.get r = some data)
    (hev : lookupKey data "events" = some (.arr evs)) :
    (filterFinishedMatchesH h r).1.get r = some data
    ∧ (filterFinishedMatchesH h r).2.1 ≠ r
    ∧ ∃ fd, (filterFinishedMatchesH h r).1.get (filterFinishedMatchesH h r).2.1
          = some fd
        ∧ lookupKey fd "events" = some (.arr (evs.filter isFinishedEvent))
        ∧ (∀ k, k ≠ "events" → k ≠ "round" →
            lookupKey fd k = lookupKey data k)
        ∧ (∀ rv, (lookupKey data "roundInfo").bind (fun ri => getObj ri "round")
              = some rv → lookupKey fd "round" = some rv)
        ∧ ((lookupKey data "roundInfo").bind (fun ri => getObj ri "round")
              = none → lookupKey fd "round" = lookupKey data "round") := by
  have hne : data.isEmpty = false := by
    cases data with
    | nil => simp [lookupKey] at hev
    | cons hd tl => rfl
  have hcond : ¬ ((data.isEmpty || (lookupKey data "events").isNone) = true) := by
    simp [hne, hev]
  have hrn : r < h.next := heap_get_lt_next hwf hr
  have hrne : r ≠ h.next := Nat.ne_of_lt hrn
  have hmain : filterFinishedMatchesH h r =
      ((match (lookupKey data "roundInfo").bind (fun ri => getObj ri "round") with
        | some rv =>
            ((h.alloc data).1.setItem h.next "events"
              (.arr (evs.filter isFinishedEvent))).setItem h.next "round" rv
        | none =>
            (h.alloc data).1.setItem h.next "events"
              (.arr (evs.filter isFinishedEvent))),
       h.next, evs.length, (evs.filter isFinishedEvent).length) := by
    unfold filterFinishedMatchesH
    simp only [hr]
    rw [if_neg hcond]
    simp [hev, asList, Heap.alloc]
  have hget1 : (h.alloc data).1.get r = some data := by
    simp [Heap.get, Heap.alloc, alookup, Ne.symm hrne]
    exact hr
  have hget1' : (h.alloc data).1.get h.next = some data := by
    simp [Heap.get, Heap.alloc, alookup]
  cases hri : (lookupKey data "roundInfo").bind (fun ri => getObj ri "round") with
  | none =>
      simp only [hmain, hri]
      refine ⟨?_, Ne.symm hrne, ?_⟩
      · rw [heap_get_setItem_other _ _ _ _ _ hrne]
        exact hget1
      · refine ⟨setKey data "events" (.arr (evs.filter isFinishedEvent)),
          ?_, ?_, ?_, ?_, ?_⟩
        · rw [heap_get_setItem_same, hget1']
          rfl
        · exact lookupKey_setKey_same data "events" _
        · intro k hk _
          exact lookupKey_setKey_other data "events" k _ hk
        · intro rv hrv
          exact absurd hrv (by simp)
        · intro _
          exact lookupKey_setKey_other data "events" "round" _ (by decide)
  | some rv =>
      simp only [hmain, hri]
      refine ⟨?_, Ne.symm hrne, ?_⟩
      · rw [heap_get_setItem_other _ _ _ _ _ hrne,
          heap_get_setItem_other _ _ _ _ _ hrne]
        exact hget1
      · refine ⟨setKey (setKey data "events" (.arr (evs.filter isFinishedEvent)))
            "round" rv, ?_, ?_, ?_, ?_, ?_⟩
        · rw [heap_get_setItem_same, heap_get_setItem_same, hget1']
          rfl
        · rw [lookupKey_setKey_other _ "round" "events" rv (by decide)]
          exact lookupKey_setKey_same data "events" _
        · intro k hk hk'
          rw [lookupKey_setKey_other _ "round" k rv hk',
            lookupKey_setKey_other data "events" k _ hk]
        · intro rv' hrv'
          cases hrv'
          exact lookupKey_setKey_same _ "round" rv
        · intro hcontra
          exact absurd hcontra (by simp)

/-- C10 (witness): the frame property at a one-object heap holding the
three-event example round. -/
theorem c10_filter_does_not_mutate_witness :
    (filterFinishedMatchesH ⟨[(0, exampleRound)], 1⟩ 0).1.get 0 =
        some exampleRound
    ∧ (filterFinishedMatchesH ⟨[(0, exampleRound)], 1⟩ 0).2.1 ≠ 0 := by
  have h := c10_filter_does_not_mutate ⟨[(0, exampleRound)], 1⟩ 0 exampleRound
    [evEnded, evNotStarted, evInProgress]
    (by intro e he; simp at he; simp [he]) rfl rfl
  exact ⟨h.1, h.2.1⟩

/-- C8: for a finished match whose basic sub-fetch succeeds, whatever
happens to each of the 4 fan-out sub-fetches (`statistics`,
`team_streaks`, `pregame_form`, `h2h`), the match is fetched, not
failed: the bundle persisted as `full_data.json` holds `basic` plus one
entry per sub-resource — the sub-fetch's body when it succeeded and
`null` when it failed — and the function returns the bundle (the match
counts as fetched). -/
theorem c8_graceful_degradation (basicData : PyDict)
    (stats streaks form h2h : EndpointResp)
    (hne : basicData.isEmpty = false)
    (hdesc : jvalEqStr ((getObj ((lookupKey basicData "status").getD (.obj []))
        "description").getD (.str "")) "Ended" = true)
    (htype : jvalEqStr ((getObj ((lookupKey basicData "status").getD (.obj []))
        "type").getD (.str "")) "finished" = true) :
    ∃ md, fetchMatchDataAsync (.ok (some basicData)) stats streaks form h2h
        = .fetched md (saveMatchData md)
      ∧ lookupKey md "basic" = some (.obj basicData)
      ∧ lookupKey md "statistics" = some (endpointData stats)
      ∧ lookupKey md "team_streaks" = some (endpointData streaks)
      ∧ lookupKey md "pregame_form" = some (endpointData form)
      ∧ lookupKey md "h2h" = some (endpointData h2h)
      ∧ (stats = .exn → lookupKey md "statistics" = some .null)
      ∧ (saveMatchData md).fullData = md := by
  refine ⟨[("basic", .obj basicData), ("statistics", endpointData stats),
    ("team_streaks", endpointData streaks), ("pregame_form", endpointData form),
    ("h2h", endpointData h2h)], ?_, rfl, rfl, rfl, rfl, rfl, ?_, rfl⟩
  · simp only [fetchMatchDataAsync]
    rw [if_neg (by simp [hne]), if_pos (by simp [hdesc, htype])]
    cases stats <;> cases streaks <;> cases form <;> cases h2h <;> rfl
  · intro hs
    subst hs
    rfl

/-- C8 (witness): a finished basic payload with a failing `statistics`
sub-fetch and succeeding others: the bundle is persisted with
`statistics = null` and the other fields populated. -/
theorem c8_graceful_degradation_witness :
    ∃ md, fetchMatchDataAsync (.ok (some exampleBasicData)) .exn
        (.ok (.num 1)) (.ok (.num 2)) (.ok (.num 3))
        = .fetched md (saveMatchData md)
      ∧ lookupKey md "statistics" = some .null
      ∧ lookupKey md "team_streaks" = some (.num 1) := by
  obtain ⟨md, h1, _h2, _h3, h4, _h5, _h6, h7, _h8⟩ :=
    c8_graceful_degradation exampleBasicData .exn (.ok (.num 1))
      (.ok (.num 2)) (.ok (.num 3)) rfl rfl rfl
  exact ⟨md, h1, h7 rfl, h4⟩

/-- C7 (counterexample): the local-file check of `_fetch_and_save_round`
ignores `round_{n}_full.json` — with only that file present (non-empty,
valid) the round is fetched from the network anyway — and a
`round_{n}.json` that decodes to *empty* round data is neither deleted
nor re-fetched: the call returns `None` with zero network requests and
the file still in place. -/
theorem c7_skip_check_counterexample :
    (fetchAndSaveRound fsOnlyFull 3 (.ok none)).networkCalls = 1
    ∧ (fetchAndSaveRound fsEmptyJson 3 (.ok none)).networkCalls = 0
    ∧ alookup (fetchAndSaveRound fsEmptyJson 3 (.ok none)).fsAfter
        (roundFileName 3) = some (.json [("events", .arr [])]) :=
  ⟨rfl, rfl, rfl⟩

/-- C7 (amended): the skip-if-exists check consults only
`round_{n}.json`: if it exists and decodes to non-empty round data, its
contents are reused with zero network calls and the directory is left
unchanged; if it decodes to *empty* round data the call returns `None`
with zero network calls, deleting nothing and re-fetching nothing; only
an undecodable file is deleted and the round re-fetched (one network
call); when the file is absent the round is fetched from the network.
`round_{n}_full.json` plays no part. -/
theorem c7_skip_if_exists_amended (fs : RoundDir) (n : Nat)
    (net : Except SofaErr (Option PyDict)) (d : PyDict) :
    (alookup fs (roundFileName n) = some (.json d) →
        isEmptyRoundData (some d) = false →
        fetchAndSaveRound fs n net = ⟨fs, some d, 0⟩)
    ∧ (alookup fs (roundFileName n) = some (.json d) →
        isEmptyRoundData (some d) = true →
        fetchAndSaveRound fs n net = ⟨fs, none, 0⟩)
    ∧ (alookup fs (roundFileName n) = some .invalid →
        fetchAndSaveRound fs n net =
          fetchAndSaveRoundNet (removeFile fs (roundFileName n))
            (roundFileName n) net
        ∧ (fetchAndSaveRound fs n net).networkCalls = 1)
    ∧ (alookup fs (roundFileName n) = none →
        fetchAndSaveRound fs n net =
          fetchAndSaveRoundNet fs (roundFileName n) net) := by
  refine ⟨?_, ?_, ?_, ?_⟩
  · intro hl hemp
    unfold fetchAndSaveRound
    simp only [hl]
    rw [if_neg (by simp [hemp])]
  · intro hl hemp
    unfold fetchAndSaveRound
    simp only [hl]
    rw [if_pos hemp]
  · intro hl
    have heq : fetchAndSaveRound fs n net =
        fetchAndSaveRoundNet (removeFile fs (roundFileName n))
          (roundFileName n) net := by
      unfold fetchAndSaveRound
      simp only [hl]
    exact ⟨heq, by rw [heq]; exact fetchAndSaveRoundNet_networkCalls _ _ _⟩
  · intro hl
    unfold fetchAndSaveRound
    simp only [hl]

/-- C7 (witness): a non-empty `round_3.json` is reused without a
network call; an undecodable `round_3.json` triggers one network
call. -/
theorem c7_skip_if_exists_amended_witness :
    fetchAndSaveRound fsGoodJson 3 (.ok none) = ⟨fsGoodJson, some exampleRound, 0⟩
    ∧ (fetchAndSaveRound fsBadJson 3 (.ok none)).networkCalls = 1 :=
  ⟨(c7_skip_if_exists_amended fsGoodJson 3 (.ok none) exampleRound).1 rfl rfl,
   ((c7_skip_if_exists_amended fsBadJson 3 (.ok none) exampleRound).2.2.1 rfl).2⟩

/-- C1: a match ID whose directory (with `full_data.json`) is already
present in the nested detail tree is removed by the pre-filter of
`fetch_all_match_details` before any request is issued: it is absent
from `match_ids_to_process`, no upstream request is made for it during
the batch, and its persisted `full_data.json` content is unchanged
afterwards — so a second batch over the same IDs does no network work
for already-persisted IDs. -/
theorem c1_prefilter_idempotent (fs : DetailsFS) (old : OldFS)
    (ids : List String) (ρ : String → Option (String × String × PyDict))
    (l s p : String) (c : PyDict)
    (hpers : alookup fs (l, s, p) = some (some c))
    (hl : l ≠ "processed") :
    p ∉ (fetchAllMatchDetailsRun fs old ids ρ).toProcess
    ∧ p ∉ (fetchAllMatchDetailsRun fs old ids ρ).requested
    ∧ alookup (fetchAllMatchDetailsRun fs old ids ρ).fsAfter (l, s, p)
        = some (some c) := by
  have hmem : ((l, s, p), some c) ∈ fs := alookup_eq_some_mem hpers
  have hex : p ∈ existingDetails fs old := by
    unfold existingDetails
    refine List.mem_append_left _ ?_
    refine List.mem_map.mpr ⟨((l, s, p), some c), ?_, rfl⟩
    refine List.mem_filter.mpr ⟨hmem, ?_⟩
    simp [hl]
  have hnp : p ∉ matchIdsToProcess fs old ids := by
    intro hpin
    have hc := (List.mem_filter.mp hpin).2
    simp at hc
    exact hc hex
  have hreq : p ∉ batchFlatFilter fs old (matchIdsToProcess fs old ids) := by
    intro hq
    exact hnp (List.mem_filter.mp hq).1
  refine ⟨hnp, hreq, ?_⟩
  have hfs : (fetchAllMatchDetailsRun fs old ids ρ).fsAfter =
      ((batchFlatFilter fs old (matchIdsToProcess fs old ids)).filterMap
        (fun id => (ρ id).map
          (fun lsd => ((lsd.1, lsd.2.1, id), some lsd.2.2)))) ++ fs := rfl
  rw [hfs, alookup_append_of_forall_ne _ _ _ ?_]
  · exact hpers
  · intro e he
    obtain ⟨id, hid, hfe⟩ := List.mem_filterMap.mp he
    obtain ⟨lsd, _hlsd, hfeq⟩ := Option.map_eq_some'.mp hfe
    subst hfeq
    intro heq
    have hidp : id = p := by
      have h3 := congrArg (fun q : DetailsPath => q.2.2) heq
      simpa using h3
    exact hreq (hidp ▸ hid)

/-- C1 (witness): with match `111` persisted under `PL/season_24_25`,
a batch over `["111", "222"]` excludes `111` from processing and leaves
its stored bundle unchanged. -/
theorem c1_prefilter_idempotent_witness :
    "111" ∉ (fetchAllMatchDetailsRun exampleDetailsFS [] ["111", "222"]
        (fun _ => none)).toProcess
    ∧ alookup (fetchAllMatchDetailsRun exampleDetailsFS [] ["111", "222"]
        (fun _ => none)).fsAfter ("PL", "season_24_25", "111")
        = some (some [("basic", evEnded)]) := by
  have h := c1_prefilter_idempotent exampleDetailsFS [] ["111", "222"]
    (fun _ => none) "PL" "season_24_25" "111" [("basic", evEnded)] rfl
    (by decide)
  exact ⟨h.1, h.2.2⟩
